import Mathlib

/-!
Verification development for the Preauth claim-workflow code.

Two modules of the source implement the role-gated status workflow and are
embedded here:

* namespace `Legacy` embeds `src/preauthprocess.py` (blueprint
  `preauth_process`): `VALID_STATUSES`, `STATUS_TRANSITIONS`,
  `validate_status_transition`, `log_status_change`, `update_claim_status`.
* namespace `Api` embeds `src/app/api/v1/routes/preauthprocess.py` (blueprint
  `preauthprocess`): `STATUS_TRANSITIONS`, `VALID_ROLES`,
  `validate_status_transition`, `create_preauth_state_record`,
  `update_preauth_status`, `get_status_history`, `submit_discharge`, together
  with the `PreauthState` record model from
  `src/app/database/models/preauth_state.py`.

Representation choices, uniform across the file:

* Python `datetime.now()` / `datetime.utcnow()` readings are modelled as a
  `Nat` argument `now` supplied to each handler: the handlers take the
  timestamp from the processing host's wall clock, so it is an input of the
  call, not a value produced by the datastore.
* Monetary amounts (`requested_amount`, `approved_amount`, `actual_cost`) are
  carried as uninterpreted strings; no handler under verification computes
  with them.
* A Firestore document is a record; business fields the handlers never touch
  are collected in an opaque `payload` association list, so that "no field of
  the document is written" is plain equality of records.
* Python `dict` literals keyed by strings are association lists
  `List (String × α)` looked up with `alookup`; `d.get(k, v)` is
  `(alookup d k).getD v` and `k in d` is `(alookup d k).isSome`.
-/

/-- Association-list lookup: the embedding of a Python string-keyed `dict`
access. `alookup l k = some v` when `(k, v)` is the first entry with key `k`;
`none` plays the role of a missing key. -/
def alookup {α : Type} : List (String × α) → String → Option α
  | [], _ => none
  | e :: rest, k => if k = e.1 then some e.2 else alookup rest k

namespace Legacy

/-- The list `VALID_STATUSES` from `src/preauthprocess.py` lines 22-37, in source
order (including the lowercase `preauth_registered` duplicate the source
adds). -/
def VALID_STATUSES : List String :=
  ["Preauth Registered", "preauth_registered", "Approved", "Need More Info",
   "Info Submitted", "Preauth Denial", "Enhance", "Enhanced",
   "Enhancement Denial", "Discharge Submit", "Discharge NMI",
   "Discharge NMI Submitted", "Discharge Denial", "Discharge Approval"]

/-- The table `STATUS_TRANSITIONS` from `src/preauthprocess.py` lines 40-59: the
role-keyed dict of current-status-keyed dicts of allowed next statuses,
entry for entry in source order. -/
def STATUS_TRANSITIONS : List (String × List (String × List String)) :=
  [("Preauth Executive",
    [("Preauth Registered", ["Enhance", "Discharge Submit"]),
     ("preauth_registered", ["Enhance", "Discharge Submit"]),
     ("Need More Info", ["Info Submitted"]),
     ("Enhance", ["Discharge Submit"]),
     ("Info Submitted", ["Enhance", "Discharge Submit"]),
     ("Approved", ["Discharge Submit"]),
     ("Enhanced", ["Discharge Submit"])]),
   ("Preauth Processor",
    [("Preauth Registered", ["Approved", "Need More Info", "Preauth Denial"]),
     ("preauth_registered", ["Approved", "Need More Info", "Preauth Denial"]),
     ("Enhance", ["Enhanced", "Enhancement Denial"]),
     ("Discharge Submit", ["Discharge NMI", "Discharge Approval", "Discharge Denial"]),
     ("Discharge NMI", ["Discharge NMI Submitted"]),
     ("Approved", []),
     ("Enhanced", [])])]

/-- The lookup `STATUS_TRANSITIONS[user_role].get(current_status, [])` used
inside `validate_status_transition` (line 69) and, with literal role keys, by
the `/api/claim-status` endpoint (lines 299-300). The outer `.getD []`
realises the guarded indexing: the validator only reaches the indexing after
checking membership, and the endpoints index with known-present keys. -/
def allowed_transitions (user_role current_status : String) : List String :=
  (alookup ((alookup STATUS_TRANSITIONS user_role).getD []) current_status).getD []

/-- Function `validate_status_transition` from `src/preauthprocess.py` lines 61-70:
reject if either status is outside `VALID_STATUSES`, reject if the role is
not a key of `STATUS_TRANSITIONS`, otherwise test membership of the new
status in the allowed list. Returns a bare `Bool` exactly as the source
does. -/
def validate_status_transition (current_status new_status user_role : String) : Bool :=
  if !(VALID_STATUSES.contains current_status) || !(VALID_STATUSES.contains new_status) then
    false
  else if (alookup STATUS_TRANSITIONS user_role).isNone then
    false
  else
    (allowed_transitions user_role current_status).contains new_status

/-- One element of a claim's `status_history` list, as built at
`src/preauthprocess.py` lines 109-115. -/
structure HistoryEntry where
  from_status : String
  to_status : String
  updated_by : String
  updated_at : Nat
  comments : String
deriving DecidableEq, Repr

/-- The claim document of the `claims` collection, with the fields
`update_claim_status` reads or writes made explicit and every other business
field kept opaque in `payload`. -/
structure Claim where
  status : String
  status_history : List HistoryEntry
  last_updated : Nat
  updated_by : String
  payload : List (String × String)
deriving DecidableEq, Repr

/-- One document of the `audit_logs` collection, as built by
`log_status_change` (lines 133-141). -/
structure AuditLog where
  claim_id : String
  action : String
  from_status : String
  to_status : String
  user_role : String
  comments : String
  timestamp : Nat
deriving DecidableEq, Repr

/-- The slice of the Firestore state `update_claim_status` touches: the claim
document addressed by the given `claim_id` (`none` when absent) and the
`audit_logs` collection. -/
structure LegacyStore where
  claim : Option Claim
  audit_logs : List AuditLog
deriving DecidableEq, Repr

/-- Function `log_status_change` from `src/preauthprocess.py` lines 129-144:
`db.collection('audit_logs').add(...)` appends one audit document. -/
def log_status_change (logs : List AuditLog)
    (claim_id from_status to_status user_role comments : String) (now : Nat) :
    List AuditLog :=
  logs ++ [{ claim_id := claim_id, action := "status_change",
             from_status := from_status, to_status := to_status,
             user_role := user_role, comments := comments, timestamp := now }]

/-- Function `update_claim_status` from `src/preauthprocess.py` lines 87-127: read the
claim, reject when absent; validate the transition against the status just
read, reject without writing when invalid; otherwise `claim_ref.update(...)`
with the new status, `last_updated`, `updated_by` and the history list grown
by one entry, then `log_status_change`. The source pairs a success flag with
a message; the exact message text is abbreviated here. -/
def update_claim_status (store : LegacyStore)
    (claim_id new_status user_role comments : String) (now : Nat) :
    (Bool × String) × LegacyStore :=
  match store.claim with
  | none => ((false, "Claim not found"), store)
  | some claim_data =>
    let current_status := claim_data.status
    if !(validate_status_transition current_status new_status user_role) then
      ((false, "Invalid status transition"), store)
    else
      let entry : HistoryEntry :=
        { from_status := current_status, to_status := new_status,
          updated_by := user_role, updated_at := now, comments := comments }
      let claim' : Claim :=
        { claim_data with
            status := new_status, last_updated := now, updated_by := user_role,
            status_history := claim_data.status_history ++ [entry] }
      ((true, "Status updated successfully"),
       { claim := some claim',
         audit_logs := log_status_change store.audit_logs claim_id current_status
           new_status user_role comments now })

end Legacy

namespace Api

/-- The table `STATUS_TRANSITIONS` from `src/app/api/v1/routes/preauthprocess.py`
lines 37-48, entry for entry in source order. Note the role keys and several
state names differ from the `Legacy` copy of the table. -/
def STATUS_TRANSITIONS : List (String × List (String × List String)) :=
  [("preauth_executive",
    [("Preauth Registered", ["Need More Info", "Preauth Approved", "Preauth Denial"]),
     ("Need More Info", ["Info Submitted"]),
     ("Discharge Submitted", ["Discharge NMI", "Discharge Approved", "Discharge Denial"]),
     ("Discharge NMI", ["Discharge NMI Submitted"])]),
   ("processor",
    [("Preauth Registered", ["Need More Info", "Preauth Approved", "Preauth Denial"]),
     ("Discharge Submitted", ["Discharge NMI", "Discharge Approved", "Discharge Denial"])])]

/-- The list `VALID_ROLES` from line 51. -/
def VALID_ROLES : List String := ["preauth_executive", "processor"]

/-- The lookup `STATUS_TRANSITIONS.get(user_role, \x7b\x7d).get(current_status, [])`: the
defaulted double lookup used by `validate_status_transition` (lines 58-59),
by the error payload of `/update-status` (line 217), and by the
`/current-status` and `/list` endpoints (lines 345, 408). Both `.get` calls
default, so the lookup is total. -/
def allowed_transitions (user_role current_status : String) : List String :=
  (alookup ((alookup STATUS_TRANSITIONS user_role).getD []) current_status).getD []

/-- Function `validate_status_transition` from lines 53-61: reject roles outside
`VALID_ROLES`, otherwise test membership in the defaulted allowed list.
Unlike the `Legacy` copy there is no state-membership check of any kind, and
the result is a bare `Bool`. -/
def validate_status_transition (current_status new_status user_role : String) : Bool :=
  if !(VALID_ROLES.contains user_role) then false
  else (allowed_transitions user_role current_status).contains new_status

/-- The `discharge_data` request dict consumed by `submit_discharge`
(lines 480-483); each field `none` when the key is absent from the request
body. -/
structure DischargeData where
  discharge_date : Option Nat
  actual_cost : Option String
  discharge_summary : Option String
  final_diagnosis : Option String
deriving DecidableEq, Repr

/-- The free-form `state_data` payload of a state record: either the generic
dict taken from the `/update-status` request body, or the
`{'discharge_data': ...}` wrapper built by `submit_discharge` (line 498). -/
inductive StateData where
  | fields (entries : List (String × String))
  | dischargeWrap (d : DischargeData)
deriving DecidableEq, Repr

/-- The `PreauthState` model
(`src/app/database/models/preauth_state.py`), restricted to the fields the
routes under verification set or read back; the remaining fields are
constructor defaults never consulted by these routes
(`duration_minutes` is read back by `get_status_history` and is always the
default `0` for records these routes create). -/
structure PreauthState where
  preauth_id : String
  hospital_id : String
  state : String
  previous_state : String
  state_data : StateData
  remarks : String
  changed_by : String
  changed_at : Nat
  duration_minutes : Nat
  is_automatic : Bool
  trigger_event : String
deriving DecidableEq, Repr

/-- Function `create_preauth_state_record` from lines 63-79: builds a `PreauthState`
with `changed_at := datetime.utcnow()`, i.e. the calling handler's clock
reading `now`. -/
def create_preauth_state_record
    (preauth_id hospital_id previous_status new_status user_id remarks : String)
    (state_data : StateData) (now : Nat) : PreauthState :=
  { preauth_id := preauth_id, hospital_id := hospital_id, state := new_status,
    previous_state := previous_status, state_data := state_data,
    remarks := remarks, changed_by := user_id, changed_at := now,
    duration_minutes := 0, is_automatic := false,
    trigger_event := "manual_status_change" }

/-- A document of the `preauth_requests` collection: `docId` is the Firestore
document id, the named fields are the ones the handlers read or write
(status-specific annotation fields as `Option`, absent until first written),
and `payload` holds every other business field opaquely. -/
structure PreauthDoc where
  docId : String
  preauth_id : String
  hospital_id : String
  status : String
  requested_amount : String
  updated_at : Nat
  updated_by : String
  approval_date : Option Nat
  approval_reference : Option String
  approved_amount : Option String
  rejection_date : Option Nat
  rejection_reason : Option String
  discharge_date : Option Nat
  actual_cost : Option String
  discharge_summary : Option String
  final_diagnosis : Option String
  payload : List (String × String)
deriving DecidableEq, Repr

/-- The slice of the Firestore state the preauthprocess routes touch: the
`preauth_requests` and `preauth_states` collections. -/
structure Store where
  preauth_requests : List PreauthDoc
  preauth_states : List PreauthState
deriving DecidableEq, Repr

/-- The predicate of the query
`.where('preauth_id', '==', preauth_id).where('hospital_id', '==', hospital_id)`. -/
def preauthMatch (preauth_id hospital_id : String) (d : PreauthDoc) : Bool :=
  d.preauth_id == preauth_id && d.hospital_id == hospital_id

/-- The query with `.limit(1)` followed by taking `preauth_docs[0]`: the
first matching document, `none` when the result set is empty. -/
def findPreauth (docs : List PreauthDoc) (preauth_id hospital_id : String) :
    Option PreauthDoc :=
  docs.find? (preauthMatch preauth_id hospital_id)

/-- The write `db.collection('preauth_requests').document(docId).set(d)`: replace the
document carrying this id with `d`, wholesale (Firestore `.set` overwrites
the entire document). -/
def setDoc : List PreauthDoc → String → PreauthDoc → List PreauthDoc
  | [], _, _ => []
  | x :: xs, docId, d => (if x.docId == docId then d else x) :: setDoc xs docId d

/-- The four outcomes of the `/update-status` handler (lines 193-268): the
400 invalid-role response, the 404, the 400 invalid-transition response
(which carries the current status and the allowed-transitions list), and the
200 success response (which carries previous and new status). The handler
has no further outcome: in particular no conflict case. -/
inductive ApiResult where
  | invalidRole
  | notFound
  | invalidTransition (current_status : String) (allowed : List String)
  | success (previous_status new_status : String)
deriving DecidableEq, Repr

/-- Whether an `ApiResult` is the 200 success outcome. -/
def ApiResult.isSuccess : ApiResult → Bool
  | .success _ _ => true
  | _ => false

/-- Lines 227-238 of `/update-status`: mutate the dict read from the store —
set `status`, `updated_at`, `updated_by`, then stamp the status-specific
annotation fields for an approval or a denial target status. -/
def applyStatusFields (doc : PreauthDoc) (new_status user_id remarks : String)
    (state_data : List (String × String)) (now : Nat) : PreauthDoc :=
  let doc := { doc with status := new_status, updated_at := now, updated_by := user_id }
  if new_status = "Preauth Approved" then
    { doc with
        approval_date := some now,
        approval_reference := some ((alookup state_data "approval_reference").getD ""),
        approved_amount :=
          some ((alookup state_data "approved_amount").getD doc.requested_amount) }
  else if new_status = "Preauth Denial" ∨ new_status = "Discharge Denial" then
    { doc with rejection_date := some now, rejection_reason := some remarks }
  else
    doc

/-- Handler `update_preauth_status` (the `/update-status` route, lines 179-268)
with its two datastore interactions made explicit: the query at line 202
reads `readStore`, and the two writes at lines 241 and 256 land on
`commitStore` — the state of the store at commit time, which concurrent
requests may meanwhile have changed. The handler itself is the diagonal
`update_preauth_status` below. The source's `.set` writes are
unconditional: no branch compares `commitStore`'s current status with the
status read from `readStore`, and no outcome reports a conflict. -/
def update_preauth_status_rw (readStore commitStore : Store)
    (hospital_id user_id user_role preauth_id new_status remarks : String)
    (state_data : List (String × String)) (now : Nat) : ApiResult × Store :=
  if !(VALID_ROLES.contains user_role) then
    (.invalidRole, commitStore)
  else
    match findPreauth readStore.preauth_requests preauth_id hospital_id with
    | none => (.notFound, commitStore)
    | some preauth_doc =>
      let current_status := preauth_doc.status
      if !(validate_status_transition current_status new_status user_role) then
        (.invalidTransition current_status (allowed_transitions user_role current_status),
         commitStore)
      else
        let doc' := applyStatusFields preauth_doc new_status user_id remarks state_data now
        let state_record := create_preauth_state_record preauth_id hospital_id
          current_status new_status user_id remarks (.fields state_data) now
        (.success current_status new_status,
         { preauth_requests := setDoc commitStore.preauth_requests preauth_doc.docId doc',
           preauth_states := commitStore.preauth_states ++ [state_record] })

/-- The `/update-status` handler as the source runs it sequentially: read and
commit against the same store state. -/
def update_preauth_status (store : Store)
    (hospital_id user_id user_role preauth_id new_status remarks : String)
    (state_data : List (String × String)) (now : Nat) : ApiResult × Store :=
  update_preauth_status_rw store store hospital_id user_id user_role preauth_id
    new_status remarks state_data now

/-- Insertion step of the `order_by('changed_at')` ascending sort. -/
def insertByTime (r : PreauthState) : List PreauthState → List PreauthState
  | [] => [r]
  | x :: xs => if r.changed_at ≤ x.changed_at then r :: x :: xs else x :: insertByTime r xs

/-- The sort `order_by('changed_at')`: sort ascending by the `changed_at` field. -/
def sortByChangedAt (l : List PreauthState) : List PreauthState :=
  l.foldr insertByTime []

/-- The state records of one claim in store (append) order: the
`preauth_states` documents matching the claim's `preauth_id` and
`hospital_id`. -/
def claimHistory (store : Store) (preauth_id hospital_id : String) :
    List PreauthState :=
  store.preauth_states.filter
    (fun r => r.preauth_id == preauth_id && r.hospital_id == hospital_id)

/-- Handler `get_status_history` (the `/status-history/<preauth_id>` route,
lines 281-310): the claim's state records ordered ascending by their
`changed_at` field. -/
def get_status_history (store : Store) (preauth_id hospital_id : String) :
    List PreauthState :=
  sortByChangedAt (claimHistory store preauth_id hospital_id)

/-- The three outcomes of the `/submit-discharge` handler (lines 445-513):
404, the 400 wrong-status response carrying the current status, and the 200
success. -/
inductive DischargeResult where
  | notFound
  | wrongStatus (current_status : String)
  | success
deriving DecidableEq, Repr

/-- Handler `submit_discharge` from lines 445-513: find the claim; reject unless its
current status is in the literal list `['Preauth Approved']`; otherwise
overwrite the document with status `'Discharge Submitted'` plus the
discharge fields and append one state record — with no call to
`validate_status_transition` and no consultation of `STATUS_TRANSITIONS`. -/
def submit_discharge (store : Store) (hospital_id user_id preauth_id : String)
    (discharge_data : DischargeData) (now : Nat) : DischargeResult × Store :=
  match findPreauth store.preauth_requests preauth_id hospital_id with
  | none => (.notFound, store)
  | some preauth_doc =>
    let current_status := preauth_doc.status
    if !(["Preauth Approved"].contains current_status) then
      (.wrongStatus current_status, store)
    else
      let doc' : PreauthDoc :=
        { preauth_doc with
            status := "Discharge Submitted",
            discharge_date := some (discharge_data.discharge_date.getD now),
            actual_cost := some (discharge_data.actual_cost.getD "0.0"),
            discharge_summary := some (discharge_data.discharge_summary.getD ""),
            final_diagnosis := some (discharge_data.final_diagnosis.getD ""),
            updated_at := now, updated_by := user_id }
      let state_record := create_preauth_state_record preauth_id hospital_id
        current_status "Discharge Submitted" user_id
        "Discharge information submitted" (.dischargeWrap discharge_data) now
      (.success,
       { preauth_requests := setDoc store.preauth_requests preauth_doc.docId doc',
         preauth_states := store.preauth_states ++ [state_record] })

/-- A state has no entry in the policy table for any role: no role's
current-status dict carries it as a key. -/
def noPolicyEntry (s : String) : Bool :=
  STATUS_TRANSITIONS.all (fun e => (alookup e.2 s).isNone)

end Api

/-- A role's transition dict never lists a status inside its own
allowed-next list. -/
def noSelfLoop (m : List (String × List String)) : Bool :=
  m.all (fun e => !(e.2.contains e.1))

/-- Concrete document used to exercise the conditional-update claim: the
state of claim PA1 as read by the slow request. -/
def c1docRead : Api.PreauthDoc :=
  { docId := "D1", preauth_id := "PA1", hospital_id := "H1",
    status := "Preauth Registered", requested_amount := "1200",
    updated_at := 0, updated_by := "u0",
    approval_date := none, approval_reference := none, approved_amount := none,
    rejection_date := none, rejection_reason := none, discharge_date := none,
    actual_cost := none, discharge_summary := none, final_diagnosis := none, payload := [] }

/-- The same document after a racing writer denied the claim: the state of
the store at the slow request's commit time. -/
def c1docRaced : Api.PreauthDoc :=
  { c1docRead with
      status := "Preauth Denial", updated_at := 5, updated_by := "racer",
      rejection_date := some 5, rejection_reason := some "denied by racer" }

/-- Store as read by the slow request. -/
def c1storeRead : Api.Store := { preauth_requests := [c1docRead], preauth_states := [] }

/-- Store at the slow request's commit time. -/
def c1storeCommit : Api.Store := { preauth_requests := [c1docRaced], preauth_states := [] }

/-- A claim sitting at `Approved`, terminal for the Legacy processor role. -/
def c3lclaim : Legacy.Claim :=
  { status := "Approved", status_history := [], last_updated := 0, updated_by := "u0",
    payload := [("patient_name", "P")] }

/-- Legacy store for the rejection-purity witness. -/
def c3lstore : Legacy.LegacyStore := { claim := some c3lclaim, audit_logs := [] }

/-- Empty Api store for the rejection-purity witness. -/
def c3store : Api.Store := { preauth_requests := [], preauth_states := [] }

/-- A claim at the initial Legacy status. -/
def c4lclaim : Legacy.Claim :=
  { status := "Preauth Registered", status_history := [], last_updated := 0,
    updated_by := "u0", payload := [] }

/-- Legacy store for the single-record witness. -/
def c4lstore : Legacy.LegacyStore := { claim := some c4lclaim, audit_logs := [] }

/-- A freshly registered Api claim document. -/
def c4doc : Api.PreauthDoc :=
  { docId := "D4", preauth_id := "PA4", hospital_id := "H1",
    status := "Preauth Registered", requested_amount := "1000",
    updated_at := 0, updated_by := "u0",
    approval_date := none, approval_reference := none, approved_amount := none,
    rejection_date := none, rejection_reason := none, discharge_date := none,
    actual_cost := none, discharge_summary := none, final_diagnosis := none, payload := [] }

/-- Api store for the single-record witness. -/
def c4store : Api.Store := { preauth_requests := [c4doc], preauth_states := [] }

/-- An approved claim: the status `Preauth Approved` has no entry in the Api
policy table for any role. -/
def c6doc : Api.PreauthDoc :=
  { docId := "D6", preauth_id := "PA6", hospital_id := "H1",
    status := "Preauth Approved", requested_amount := "1000",
    updated_at := 0, updated_by := "u0",
    approval_date := some 0, approval_reference := some "REF", approved_amount := some "1000",
    rejection_date := none, rejection_reason := none, discharge_date := none,
    actual_cost := none, discharge_summary := none, final_diagnosis := none, payload := [] }

/-- Store holding the approved claim. -/
def c6store : Api.Store := { preauth_requests := [c6doc], preauth_states := [] }

/-- Discharge request payload for the approved claim. -/
def c6dd : Api.DischargeData :=
  { discharge_date := some 9, actual_cost := some "900.0",
    discharge_summary := some "ok", final_diagnosis := some "dx" }

/-- A freshly registered claim for the history-ordering scenario. -/
def c7doc : Api.PreauthDoc :=
  { docId := "D7", preauth_id := "PA7", hospital_id := "H1",
    status := "Preauth Registered", requested_amount := "500",
    updated_at := 0, updated_by := "u0",
    approval_date := none, approval_reference := none, approved_amount := none,
    rejection_date := none, rejection_reason := none, discharge_date := none,
    actual_cost := none, discharge_summary := none, final_diagnosis := none, payload := [] }

/-- Initial store of the history-ordering scenario. -/
def c7store0 : Api.Store := { preauth_requests := [c7doc], preauth_states := [] }

/-- Store after the first update, performed by a writer whose clock reads
100. -/
def c7store1 : Api.Store :=
  (Api.update_preauth_status c7store0 "H1" "uA" "preauth_executive" "PA7" "Need More Info"
    "" [] 100).2

/-- Store after the second update, performed later by a writer whose skewed
clock reads 50. -/
def c7store2 : Api.Store :=
  (Api.update_preauth_status c7store1 "H1" "uB" "preauth_executive" "PA7" "Info Submitted"
    "" [] 50).2

/-- An approved claim for the discharge-contract witness. -/
def c9doc : Api.PreauthDoc :=
  { docId := "D9", preauth_id := "PA9", hospital_id := "H1",
    status := "Preauth Approved", requested_amount := "800",
    updated_at := 0, updated_by := "u0",
    approval_date := some 0, approval_reference := some "R9", approved_amount := some "800",
    rejection_date := none, rejection_reason := none, discharge_date := none,
    actual_cost := none, discharge_summary := none, final_diagnosis := none, payload := [] }

/-- Store holding the approved claim for the discharge-contract witness. -/
def c9store : Api.Store := { preauth_requests := [c9doc], preauth_states := [] }

/-- Discharge request payload for the discharge-contract witness. -/
def c9dd : Api.DischargeData :=
  { discharge_date := none, actual_cost := some "750.0",
    discharge_summary := some "recovered", final_diagnosis := some "dx" }

/-- Membership inversion for `alookup`: a successful lookup returns an entry
of the list. -/
theorem alookup_mem {α : Type} : ∀ (l : List (String × α)) (k : String) (v : α),
    alookup l k = some v → (k, v) ∈ l
  | [], _, _, h => by simp [alookup] at h
  | (a, b) :: rest, k, v, h => by
    by_cases hk : k = a
    · subst hk
      simp [alookup] at h
      subst h
      exact List.mem_cons_self _ _
    · simp [alookup, hk] at h
      exact List.mem_cons_of_mem _ (alookup_mem rest k v h)

/-- In a `noSelfLoop` dict, the list looked up under a key never contains
that key. -/
theorem noSelfLoop_lookup (m : List (String × List String)) (hm : noSelfLoop m = true)
    (s : String) (l : List String) (hl : alookup m s = some l) : l.contains s = false := by
  have hmem := alookup_mem m s l hl
  have h2 := List.all_eq_true.mp hm (s, l) hmem
  simpa using h2

/-- Defaulted lookup in a `noSelfLoop` dict never yields a list containing
the key itself. -/
theorem contains_getD_alookup_self (m : List (String × List String))
    (hm : noSelfLoop m = true) (s : String) :
    ((alookup m s).getD []).contains s = false := by
  cases h : alookup m s with
  | none => rfl
  | some l => simpa using noSelfLoop_lookup m hm s l h

/-- Every per-role dict of the Legacy table is `noSelfLoop`. -/
theorem legacy_table_noSelfLoop (r : String) (m : List (String × List String))
    (h : alookup Legacy.STATUS_TRANSITIONS r = some m) : noSelfLoop m = true := by
  have hm := alookup_mem _ _ _ h
  simp only [Legacy.STATUS_TRANSITIONS, List.mem_cons, List.not_mem_nil, or_false,
    Prod.mk.injEq] at hm
  rcases hm with ⟨_, hm⟩ | ⟨_, hm⟩ <;> subst hm <;> decide

/-- Every per-role dict of the Api table is `noSelfLoop`. -/
theorem api_table_noSelfLoop (r : String) (m : List (String × List String))
    (h : alookup Api.STATUS_TRANSITIONS r = some m) : noSelfLoop m = true := by
  have hm := alookup_mem _ _ _ h
  simp only [Api.STATUS_TRANSITIONS, List.mem_cons, List.not_mem_nil, or_false,
    Prod.mk.injEq] at hm
  rcases hm with ⟨_, hm⟩ | ⟨_, hm⟩ <;> subst hm <;> decide

/-- No Legacy allowed-transitions list contains its own current status. -/
theorem legacy_allowed_no_self (s r : String) :
    (Legacy.allowed_transitions r s).contains s = false := by
  unfold Legacy.allowed_transitions
  cases h : alookup Legacy.STATUS_TRANSITIONS r with
  | none => rfl
  | some m => exact contains_getD_alookup_self m (legacy_table_noSelfLoop r m h) s

/-- No Api allowed-transitions list contains its own current status. -/
theorem api_allowed_no_self (s r : String) :
    (Api.allowed_transitions r s).contains s = false := by
  unfold Api.allowed_transitions
  cases h : alookup Api.STATUS_TRANSITIONS r with
  | none => rfl
  | some m => exact contains_getD_alookup_self m (api_table_noSelfLoop r m h) s

/-- The Legacy validator rejects every self-transition. -/
theorem legacy_no_self (s r : String) :
    Legacy.validate_status_transition s s r = false := by
  unfold Legacy.validate_status_transition
  split
  · rfl
  · split
    · rfl
    · exact legacy_allowed_no_self s r

/-- The Api validator rejects every self-transition. -/
theorem api_no_self (s r : String) :
    Api.validate_status_transition s s r = false := by
  unfold Api.validate_status_transition
  split
  · rfl
  · exact api_allowed_no_self s r

/-- A status with no policy entry for any role has an empty allowed list
under every role string. -/
theorem api_allowed_empty_of_noPolicyEntry (s r : String)
    (h : Api.noPolicyEntry s = true) : Api.allowed_transitions r s = [] := by
  unfold Api.allowed_transitions
  cases hr : alookup Api.STATUS_TRANSITIONS r with
  | none => rfl
  | some m =>
    have hmem := alookup_mem _ _ _ hr
    have h2 : (alookup m s).isNone = true := by
      simpa using List.all_eq_true.mp h (r, m) hmem
    have h3 : alookup m s = none := Option.isNone_iff_eq_none.mp h2
    show (alookup m s).getD [] = []
    rw [h3]
    rfl

/-- Every transition out of a status with no policy entry is rejected by the
Api validator, for every target status and role string. -/
theorem api_validate_false_of_noPolicyEntry (s n r : String)
    (h : Api.noPolicyEntry s = true) :
    Api.validate_status_transition s n r = false := by
  unfold Api.validate_status_transition
  split
  · rfl
  · rw [api_allowed_empty_of_noPolicyEntry s r h]
    rfl

/-- Mutating the read snapshot keeps the claim identifiers and sets the
status to the target status. -/
theorem applyStatusFields_fields (doc : Api.PreauthDoc) (ns uid rem : String)
    (sd : List (String × String)) (now : Nat) :
    (Api.applyStatusFields doc ns uid rem sd now).preauth_id = doc.preauth_id ∧
    (Api.applyStatusFields doc ns uid rem sd now).hospital_id = doc.hospital_id ∧
    (Api.applyStatusFields doc ns uid rem sd now).status = ns := by
  simp only [Api.applyStatusFields]
  split
  · simp
  · split
    · simp
    · simp

/-- Replacing the found document by a still-matching one makes the query
return the replacement. -/
theorem find?_setDoc (l : List Api.PreauthDoc) (p : Api.PreauthDoc → Bool)
    (doc doc' : Api.PreauthDoc) (hfind : l.find? p = some doc) (hp : p doc' = true) :
    (Api.setDoc l doc.docId doc').find? p = some doc' := by
  induction l with
  | nil => simp at hfind
  | cons x xs ih =>
    by_cases hx : p x = true
    · rw [List.find?_cons_of_pos _ hx] at hfind
      injection hfind with h1
      subst h1
      show ((if x.docId == x.docId then doc' else x) :: Api.setDoc xs x.docId doc').find? p
          = some doc'
      rw [beq_self_eq_true]
      simp only [if_true]
      rw [List.find?_cons_of_pos _ hp]
    · rw [List.find?_cons_of_neg _ hx] at hfind
      show ((if x.docId == doc.docId then doc' else x) :: Api.setDoc xs doc.docId doc').find? p
          = some doc'
      by_cases hid : (x.docId == doc.docId) = true
      · rw [hid]
        simp only [if_true]
        rw [List.find?_cons_of_pos _ hp]
      · rw [Bool.not_eq_true] at hid
        rw [hid]
        simp only [Bool.false_eq_true, if_false]
        rw [List.find?_cons_of_neg _ hx]
        exact ih hfind

/-- Inversion of a successful `/update-status` run: the claim was found, and
the result store is the commit store with the found document rewritten and
exactly one state record appended. -/
theorem api_update_success_inversion (store : Api.Store)
    (hospital_id user_id user_role preauth_id new_status remarks : String)
    (state_data : List (String × String)) (now : Nat) (prev ns2 : String) (store' : Api.Store)
    (h : Api.update_preauth_status store hospital_id user_id user_role preauth_id new_status
          remarks state_data now = (.success prev ns2, store')) :
    ∃ doc, Api.findPreauth store.preauth_requests preauth_id hospital_id = some doc ∧
      prev = doc.status ∧ ns2 = new_status ∧
      store'.preauth_requests = Api.setDoc store.preauth_requests doc.docId
        (Api.applyStatusFields doc new_status user_id remarks state_data now) ∧
      store'.preauth_states = store.preauth_states ++
        [Api.create_preauth_state_record preauth_id hospital_id doc.status new_status
          user_id remarks (.fields state_data) now] := by
  by_cases hr : user_role ∈ Api.VALID_ROLES
  · match hf : Api.findPreauth store.preauth_requests preauth_id hospital_id with
    | none =>
      exfalso
      simp [Api.update_preauth_status, Api.update_preauth_status_rw, hr, hf] at h
    | some doc =>
      by_cases hv : Api.validate_status_transition doc.status new_status user_role = true
      · simp [Api.update_preauth_status, Api.update_preauth_status_rw, hr, hf, hv,
          Prod.ext_iff] at h
        obtain ⟨⟨h1, h2⟩, h3⟩ := h
        exact ⟨doc, rfl, h1.symm, h2.symm, by rw [← h3], by rw [← h3]⟩
      · have hv2 : Api.validate_status_transition doc.status new_status user_role = false := by
          simpa using hv
        exfalso
        simp [Api.update_preauth_status, Api.update_preauth_status_rw, hr, hf, hv2] at h
  · exfalso
    simp [Api.update_preauth_status, Api.update_preauth_status_rw, hr] at h

/-- Inversion of a successful Legacy `update_claim_status` run. -/
theorem legacy_update_success_inversion (lstore : Legacy.LegacyStore)
    (claim_id lnew lrole lcomments : String) (lnow : Nat) (lmsg : String)
    (lstore' : Legacy.LegacyStore)
    (h : Legacy.update_claim_status lstore claim_id lnew lrole lcomments lnow
          = ((true, lmsg), lstore')) :
    ∃ claim_data, lstore.claim = some claim_data ∧
      Legacy.validate_status_transition claim_data.status lnew lrole = true ∧
      lstore'.claim = some
        { claim_data with
            status := lnew, last_updated := lnow, updated_by := lrole,
            status_history := claim_data.status_history ++
              [{ from_status := claim_data.status, to_status := lnew,
                 updated_by := lrole, updated_at := lnow, comments := lcomments }] } ∧
      lstore'.audit_logs = Legacy.log_status_change lstore.audit_logs claim_id
        claim_data.status lnew lrole lcomments lnow := by
  match hs : lstore.claim with
  | none =>
    exfalso
    simp [Legacy.update_claim_status, hs] at h
  | some claim_data =>
    by_cases hv : Legacy.validate_status_transition claim_data.status lnew lrole = true
    · simp [Legacy.update_claim_status, hs, hv, Prod.ext_iff] at h
      obtain ⟨h1, h2⟩ := h
      exact ⟨claim_data, rfl, hv, by rw [← h2], by rw [← h2]⟩
    · exfalso
      have hv2 : Legacy.validate_status_transition claim_data.status lnew lrole = false := by
        simpa using hv
      simp [Legacy.update_claim_status, hs, hv2] at h

/-- Membership in an insertion-sort insertion step. -/
theorem mem_insertByTime (r y : Api.PreauthState) (l : List Api.PreauthState)
    (h : y ∈ Api.insertByTime r l) : y = r ∨ y ∈ l := by
  induction l with
  | nil =>
    simp [Api.insertByTime] at h
    exact Or.inl h
  | cons x xs ih =>
    rw [Api.insertByTime] at h
    split at h
    · rcases List.mem_cons.mp h with h2 | h2
      · exact Or.inl h2
      · exact Or.inr h2
    · rcases List.mem_cons.mp h with h2 | h2
      · exact Or.inr (h2 ▸ List.mem_cons_self _ _)
      · rcases ih h2 with h3 | h3
        · exact Or.inl h3
        · exact Or.inr (List.mem_cons_of_mem _ h3)

/-- Insertion preserves sortedness by `changed_at`. -/
theorem pairwise_insertByTime (r : Api.PreauthState) (l : List Api.PreauthState)
    (h : List.Pairwise (fun a b => a.changed_at ≤ b.changed_at) l) :
    List.Pairwise (fun a b => a.changed_at ≤ b.changed_at) (Api.insertByTime r l) := by
  induction l with
  | nil => simp [Api.insertByTime]
  | cons x xs ih =>
    rw [Api.insertByTime]
    obtain ⟨hx, hxs⟩ := List.pairwise_cons.mp h
    split
    · next hle =>
      refine List.pairwise_cons.mpr ⟨?_, h⟩
      intro y hy
      rcases List.mem_cons.mp hy with h2 | h2
      · exact h2 ▸ hle
      · exact le_trans hle (hx y h2)
    · next hgt =>
      refine List.pairwise_cons.mpr ⟨?_, ih hxs⟩
      intro y hy
      rcases mem_insertByTime r y xs hy with h2 | h2
      · exact h2 ▸ le_of_not_le hgt
      · exact hx y h2

/-- The history sort always returns a list sorted ascending by
`changed_at`. -/
theorem pairwise_sortByChangedAt (l : List Api.PreauthState) :
    List.Pairwise (fun a b => a.changed_at ≤ b.changed_at) (Api.sortByChangedAt l) := by
  induction l with
  | nil => simp [Api.sortByChangedAt]
  | cons x xs ih => exact pairwise_insertByTime x (Api.sortByChangedAt xs) ih

/-- C1. Claim: every status-update call writes the new status and its
annotation fields only if, at commit time, the store's current status for
the claim still equals the status read at the start of the call, and on a
mismatch returns Conflict without writing. The code does the opposite: the
handler validates against the status it read and then issues an
unconditional `.set` of the whole document dict derived from that read
snapshot, and its outcome type (`Api.ApiResult`) has no conflict case at
all. Witnessed at a concrete race: claim PA1 is read at
`Preauth Registered`, the store at commit time already holds
`Preauth Denial` (a racing writer's denial), yet the call reports success,
overwrites the stored status with `Preauth Approved` (clobbering the racing
denial), and appends a state record. -/
theorem c1_unconditional_write_despite_conflict :
    c1docRaced.status ≠ c1docRead.status ∧
    (Api.update_preauth_status_rw c1storeRead c1storeCommit "H1" "u1" "preauth_executive"
        "PA1" "Preauth Approved" "" [] 10).1
      = .success "Preauth Registered" "Preauth Approved" ∧
    (Api.findPreauth (Api.update_preauth_status_rw c1storeRead c1storeCommit "H1" "u1"
        "preauth_executive" "PA1" "Preauth Approved" "" [] 10).2.preauth_requests
      "PA1" "H1").map Api.PreauthDoc.status = some "Preauth Approved" ∧
    (Api.update_preauth_status_rw c1storeRead c1storeCommit "H1" "u1" "preauth_executive"
        "PA1" "Preauth Approved" "" [] 10).2.preauth_states.length = 1 := by
  decide

/-- C2. Claim: the two independently maintained transition tables diverge on
a role and current state denoting the same domain concept, so the two
`validate_status_transition` functions are not extensionally equal. The
executive role is keyed `Preauth Executive` in the Legacy table and
`preauth_executive` in the Api table; from the current state
`Preauth Registered` (spelled identically in both) their allowed-next sets
are disjoint, and each validator accepts a transition the other rejects. -/
theorem c2_tables_diverge :
    Legacy.allowed_transitions "Preauth Executive" "Preauth Registered" ≠
      Api.allowed_transitions "preauth_executive" "Preauth Registered" ∧
    Legacy.validate_status_transition "Preauth Registered" "Need More Info"
      "Preauth Executive" = false ∧
    Api.validate_status_transition "Preauth Registered" "Need More Info"
      "preauth_executive" = true ∧
    Legacy.validate_status_transition "Preauth Registered" "Enhance"
      "Preauth Executive" = true ∧
    Api.validate_status_transition "Preauth Registered" "Enhance"
      "preauth_executive" = false := by
  decide

/-- C3. Claim: every rejected status-update call — unknown role, invalid
transition, or claim not found — leaves the store unchanged: no claim field
is written and no history or state record is appended. In both embedded
mutators a non-success result returns the store passed in, unchanged
(snapshot equality). -/
theorem c3_rejected_apply_pure
    (lstore : Legacy.LegacyStore) (claim_id lnew lrole lcomments : String) (lnow : Nat)
    (store : Api.Store) (hospital_id user_id user_role preauth_id new_status remarks : String)
    (state_data : List (String × String)) (now : Nat) :
    ((Legacy.update_claim_status lstore claim_id lnew lrole lcomments lnow).1.1 = false →
      (Legacy.update_claim_status lstore claim_id lnew lrole lcomments lnow).2 = lstore) ∧
    ((Api.update_preauth_status store hospital_id user_id user_role preauth_id new_status
        remarks state_data now).1.isSuccess = false →
      (Api.update_preauth_status store hospital_id user_id user_role preauth_id new_status
        remarks state_data now).2 = store) := by
  constructor
  · intro h
    match hs : lstore.claim with
    | none => simp [Legacy.update_claim_status, hs]
    | some claim_data =>
      by_cases hv : Legacy.validate_status_transition claim_data.status lnew lrole = true
      · exfalso
        simp [Legacy.update_claim_status, hs, hv] at h
      · have hv2 : Legacy.validate_status_transition claim_data.status lnew lrole = false := by
          simpa using hv
        simp [Legacy.update_claim_status, hs, hv2]
  · intro h
    by_cases hr : user_role ∈ Api.VALID_ROLES
    · match hf : Api.findPreauth store.preauth_requests preauth_id hospital_id with
      | none => simp [Api.update_preauth_status, Api.update_preauth_status_rw, hr, hf]
      | some doc =>
        by_cases hv : Api.validate_status_transition doc.status new_status user_role = true
        · exfalso
          simp [Api.update_preauth_status, Api.update_preauth_status_rw, hr, hf, hv,
            Api.ApiResult.isSuccess] at h
        · have hv2 : Api.validate_status_transition doc.status new_status user_role = false := by
            simpa using hv
          simp [Api.update_preauth_status, Api.update_preauth_status_rw, hr, hf, hv2]
    · simp [Api.update_preauth_status, Api.update_preauth_status_rw, hr]

/-- Witness for C3: a Legacy invalid transition (processor from the terminal
`Approved`) and an Api unknown role both leave their concrete stores
untouched. -/
theorem c3_rejected_apply_pure_witness :
    (Legacy.update_claim_status c3lstore "C1" "Enhance" "Preauth Processor" "" 3).2
      = c3lstore ∧
    (Api.update_preauth_status c3store "H1" "u1" "admin" "PA1" "Preauth Approved" ""
        [] 3).2 = c3store :=
  ⟨(c3_rejected_apply_pure c3lstore "C1" "Enhance" "Preauth Processor" "" 3 c3store "H1"
      "u1" "admin" "PA1" "Preauth Approved" "" [] 3).1 (by decide),
   (c3_rejected_apply_pure c3lstore "C1" "Enhance" "Preauth Processor" "" 3 c3store "H1"
      "u1" "admin" "PA1" "Preauth Approved" "" [] 3).2 (by decide)⟩

/-- C4. Claim: every successful status-update call appends exactly one
transition record to the claim's history, and the new-state field of that
appended record equals the claim's stored status immediately after the
call. Proved for both mutators: the Legacy claim's `status_history` grows by
exactly one entry whose `to_status` equals the updated claim's status, and
the Api claim's filtered state-record history grows by exactly one record
whose `state` equals the status now stored on the claim document. -/
theorem c4_success_appends_one
    (lstore : Legacy.LegacyStore) (claim_id lnew lrole lcomments : String) (lnow : Nat)
    (store : Api.Store) (hospital_id user_id user_role preauth_id new_status remarks : String)
    (state_data : List (String × String)) (now : Nat) :
    ((Legacy.update_claim_status lstore claim_id lnew lrole lcomments lnow).1.1 = true →
      ∃ claim_data claim', lstore.claim = some claim_data ∧
        (Legacy.update_claim_status lstore claim_id lnew lrole lcomments lnow).2.claim
          = some claim' ∧
        ∃ entry, claim'.status_history = claim_data.status_history ++ [entry] ∧
          entry.to_status = claim'.status) ∧
    (∀ prev ns2, (Api.update_preauth_status store hospital_id user_id user_role preauth_id
        new_status remarks state_data now).1 = .success prev ns2 →
      ∃ recd,
        Api.claimHistory (Api.update_preauth_status store hospital_id user_id user_role
            preauth_id new_status remarks state_data now).2 preauth_id hospital_id
          = Api.claimHistory store preauth_id hospital_id ++ [recd] ∧
        recd.state = ns2 ∧
        ∃ doc', Api.findPreauth (Api.update_preauth_status store hospital_id user_id user_role
            preauth_id new_status remarks state_data now).2.preauth_requests preauth_id
            hospital_id = some doc' ∧ doc'.status = ns2) := by
  constructor
  · intro h1
    have heq : Legacy.update_claim_status lstore claim_id lnew lrole lcomments lnow
        = ((true, (Legacy.update_claim_status lstore claim_id lnew lrole lcomments lnow).1.2),
           (Legacy.update_claim_status lstore claim_id lnew lrole lcomments lnow).2) := by
      rw [← h1]
    obtain ⟨claim_data, hs, hv, hclaim, haudit⟩ :=
      legacy_update_success_inversion lstore claim_id lnew lrole lcomments lnow _ _ heq
    exact ⟨claim_data, _, hs, hclaim, ⟨_, rfl, rfl⟩⟩
  · intro prev ns2 h1
    have heq : Api.update_preauth_status store hospital_id user_id user_role preauth_id
        new_status remarks state_data now
        = (.success prev ns2, (Api.update_preauth_status store hospital_id user_id user_role
            preauth_id new_status remarks state_data now).2) := by
      rw [← h1]
    obtain ⟨doc, hf, hprev, hns, hreq, hstates⟩ :=
      api_update_success_inversion store hospital_id user_id user_role preauth_id new_status
        remarks state_data now prev ns2 _ heq
    refine ⟨Api.create_preauth_state_record preauth_id hospital_id doc.status new_status
        user_id remarks (.fields state_data) now, ?_, ?_, ?_⟩
    · unfold Api.claimHistory
      rw [hstates, List.filter_append]
      simp [Api.create_preauth_state_record]
    · rw [hns]
      rfl
    · have hd : Api.preauthMatch preauth_id hospital_id doc = true := List.find?_some hf
      obtain ⟨hpid, hhid, hstat⟩ :=
        applyStatusFields_fields doc new_status user_id remarks state_data now
      have hp : Api.preauthMatch preauth_id hospital_id
          (Api.applyStatusFields doc new_status user_id remarks state_data now) = true := by
        unfold Api.preauthMatch at hd ⊢
        rw [hpid, hhid]
        exact hd
      refine ⟨Api.applyStatusFields doc new_status user_id remarks state_data now, ?_, ?_⟩
      · rw [hreq]
        exact find?_setDoc store.preauth_requests _ doc _ hf hp
      · rw [hstat, hns]

/-- Witness for C4: a successful Legacy transition (executive moves a
registered claim to `Enhance`) and a successful Api transition (processor
approves a registered claim) each append exactly one matching record. -/
theorem c4_success_appends_one_witness :
    (∃ claim_data claim', c4lstore.claim = some claim_data ∧
      (Legacy.update_claim_status c4lstore "C4" "Enhance" "Preauth Executive" "go" 5).2.claim
        = some claim' ∧
      ∃ entry, claim'.status_history = claim_data.status_history ++ [entry] ∧
        entry.to_status = claim'.status) ∧
    (∃ recd,
      Api.claimHistory (Api.update_preauth_status c4store "H1" "u1" "processor" "PA4"
          "Preauth Approved" "ok" [] 5).2 "PA4" "H1"
        = Api.claimHistory c4store "PA4" "H1" ++ [recd] ∧
      recd.state = "Preauth Approved" ∧
      ∃ doc', Api.findPreauth (Api.update_preauth_status c4store "H1" "u1" "processor" "PA4"
          "Preauth Approved" "ok" [] 5).2.preauth_requests "PA4" "H1" = some doc' ∧
        doc'.status = "Preauth Approved") :=
  ⟨(c4_success_appends_one c4lstore "C4" "Enhance" "Preauth Executive" "go" 5 c4store "H1"
      "u1" "processor" "PA4" "Preauth Approved" "ok" [] 5).1 (by decide),
   (c4_success_appends_one c4lstore "C4" "Enhance" "Preauth Executive" "go" 5 c4store "H1"
      "u1" "processor" "PA4" "Preauth Approved" "ok" [] 5).2 "Preauth Registered"
      "Preauth Approved" (by decide)⟩

/-- C5 counterexample. Claim: validation fails with distinguishable
`UnknownRole`, `UnknownState` and `IllegalTransition` outcomes. Both
validators return a bare `Bool`: at concrete inputs exhibiting an unknown
role, an unrecognised state (which the Api validator does not even check —
it falls through to an empty allowed list), and an in-role disallowed
transition, the result is one and the same value `false`, so the failure
kinds are not distinguishable and no `UnknownState` outcome exists. -/
theorem c5_counterexample :
    Api.validate_status_transition "Preauth Registered" "Preauth Approved" "admin" = false ∧
    Legacy.validate_status_transition "No Such State" "Approved" "Preauth Processor" = false ∧
    Api.validate_status_transition "No Such State" "Preauth Approved" "processor" = false ∧
    Api.validate_status_transition "Preauth Registered" "Info Submitted" "processor" = false ∧
    Api.validate_status_transition "Preauth Registered" "Preauth Approved" "admin" =
      Api.validate_status_transition "Preauth Registered" "Info Submitted" "processor" := by
  decide

/-- C5 amended. Both validators do reject an unknown role, a state outside
the recognised set (checked explicitly only in the Legacy validator; the Api
validator rejects unlisted states only through their empty allowed list) and
a disallowed transition, and succeed exactly on a transition listed for the
role, but all failures collapse into the single undistinguished boolean
`false`; the allowed-next-states diagnostic is attached by the HTTP layer,
not by the validator. -/
theorem c5_amended_boolean_validation (c n r : String) :
    (Api.VALID_ROLES.contains r = false → Api.validate_status_transition c n r = false) ∧
    (Api.allowed_transitions r c = [] → Api.validate_status_transition c n r = false) ∧
    (Api.validate_status_transition c n r = true →
      Api.VALID_ROLES.contains r = true ∧ (Api.allowed_transitions r c).contains n = true) ∧
    (Legacy.VALID_STATUSES.contains c = false → Legacy.validate_status_transition c n r = false) ∧
    (Legacy.VALID_STATUSES.contains n = false → Legacy.validate_status_transition c n r = false) ∧
    (alookup Legacy.STATUS_TRANSITIONS r = none → Legacy.validate_status_transition c n r = false) ∧
    (Legacy.validate_status_transition c n r = true →
      (Legacy.allowed_transitions r c).contains n = true) := by
  refine ⟨?_, ?_, ?_, ?_, ?_, ?_, ?_⟩
  · intro h
    have h2 : r ∉ Api.VALID_ROLES := by simpa using h
    simp [Api.validate_status_transition, h2]
  · intro h
    by_cases hr : r ∈ Api.VALID_ROLES
    · simp [Api.validate_status_transition, hr, h]
    · simp [Api.validate_status_transition, hr]
  · intro h
    have h2 := by simpa [Api.validate_status_transition] using h
    exact ⟨by simpa using h2.1, by simpa using h2.2⟩
  · intro h
    have h2 : c ∉ Legacy.VALID_STATUSES := by simpa using h
    simp [Legacy.validate_status_transition, h2]
  · intro h
    have h2 : n ∉ Legacy.VALID_STATUSES := by simpa using h
    simp [Legacy.validate_status_transition, h2]
  · intro h
    simp [Legacy.validate_status_transition, h]
  · intro h
    have h2 := by simpa [Legacy.validate_status_transition] using h
    simpa using h2.2.2

/-- Witness for the amended C5: an unknown Api role and an unrecognised
Legacy state are both rejected, each as plain `false`. -/
theorem c5_amended_boolean_validation_witness :
    Api.validate_status_transition "Preauth Registered" "Preauth Approved" "admin" = false ∧
    Legacy.validate_status_transition "No Such State" "Approved" "Preauth Processor" = false :=
  ⟨(c5_amended_boolean_validation "Preauth Registered" "Preauth Approved" "admin").1 (by decide),
   (c5_amended_boolean_validation "No Such State" "Approved" "Preauth Processor").2.2.2.1
     (by decide)⟩

/-- C6 counterexample. Claim: from a state with no policy entry for any role
every status-update attempt is rejected and no operation of the system moves
a claim out of such a state. `Preauth Approved` has no entry in the Api
policy table for either role, yet `submit_discharge` moves a claim at
`Preauth Approved` to `Discharge Submitted` and appends a state record,
bypassing the policy entirely. -/
theorem c6_counterexample :
    Api.noPolicyEntry "Preauth Approved" = true ∧
    (Api.submit_discharge c6store "H1" "u1" "PA6" c6dd 9).1 = .success ∧
    (Api.findPreauth (Api.submit_discharge c6store "H1" "u1" "PA6" c6dd 9).2.preauth_requests
        "PA6" "H1").map Api.PreauthDoc.status = some "Discharge Submitted" ∧
    (Api.claimHistory (Api.submit_discharge c6store "H1" "u1" "PA6" c6dd 9).2 "PA6" "H1").map
        Api.PreauthState.state = ["Discharge Submitted"] := by
  decide

/-- C6 amended. Along the `/update-status` path the claim holds: if the
claim's current status has no entry in the policy table for any role, every
update attempt under a valid role returns the invalid-transition outcome
with an empty allowed list and leaves the store unchanged; the exception is
the separate `submit_discharge` operation, which moves a claim out of
`Preauth Approved` without consulting the policy (the counterexample
theorem). -/
theorem c6_amended_terminal_update_rejected (store : Api.Store)
    (hospital_id user_id user_role preauth_id new_status remarks : String)
    (state_data : List (String × String)) (now : Nat) (doc : Api.PreauthDoc)
    (hrole : Api.VALID_ROLES.contains user_role = true)
    (hfind : Api.findPreauth store.preauth_requests preauth_id hospital_id = some doc)
    (hterm : Api.noPolicyEntry doc.status = true) :
    Api.update_preauth_status store hospital_id user_id user_role preauth_id new_status
        remarks state_data now = (.invalidTransition doc.status [], store) := by
  have hv := api_validate_false_of_noPolicyEntry doc.status new_status user_role hterm
  have ha := api_allowed_empty_of_noPolicyEntry doc.status user_role hterm
  have hrole2 : user_role ∈ Api.VALID_ROLES := by simpa using hrole
  simp [Api.update_preauth_status, Api.update_preauth_status_rw, hrole2, hfind, hv, ha]

/-- Witness for the amended C6: a processor's attempt to move an approved
claim (`Preauth Approved`, no policy entry) is rejected with an empty
allowed list and the store is unchanged. -/
theorem c6_amended_terminal_update_rejected_witness :
    Api.update_preauth_status c6store "H1" "u1" "processor" "PA6" "Discharge Approved"
        "" [] 7 = (.invalidTransition "Preauth Approved" [], c6store) :=
  c6_amended_terminal_update_rejected c6store "H1" "u1" "processor" "PA6"
    "Discharge Approved" "" [] 7 c6doc (by decide) (by decide) (by decide)

/-- C7 counterexample. Claim: history records carry store-assigned
timestamps, monotonic per claim, so records of racing requests are never
reordered by clock skew. In the code `changed_at` is the calling handler's
own `datetime.utcnow()` reading and `get_status_history` sorts by it. Here
two sequential successful updates are performed — the first by a writer
whose clock reads 100, the second by a writer whose skewed clock reads 50 —
and the returned history lists the later transition first: the returned
order contradicts the append order, and the last returned record's state
(`Need More Info`) is not the claim's current status (`Info Submitted`). -/
theorem c7_counterexample :
    (Api.update_preauth_status c7store0 "H1" "uA" "preauth_executive" "PA7" "Need More Info"
        "" [] 100).1 = .success "Preauth Registered" "Need More Info" ∧
    (Api.update_preauth_status c7store1 "H1" "uB" "preauth_executive" "PA7" "Info Submitted"
        "" [] 50).1 = .success "Need More Info" "Info Submitted" ∧
    (Api.claimHistory c7store2 "PA7" "H1").map Api.PreauthState.changed_at = [100, 50] ∧
    (Api.get_status_history c7store2 "PA7" "H1").map Api.PreauthState.changed_at
      = [50, 100] ∧
    (Api.get_status_history c7store2 "PA7" "H1").map Api.PreauthState.state
      = ["Info Submitted", "Need More Info"] ∧
    (Api.findPreauth c7store2.preauth_requests "PA7" "H1").map Api.PreauthDoc.status
      = some "Info Submitted" := by
  decide

/-- C7 amended. What the code guarantees instead: the appended record's
`changed_at` is exactly the caller-supplied clock reading (client
wall-clock, not store-assigned), and `get_status_history` returns records
sorted ascending by that field — so the order is by client clocks and can be
reordered by skew, as the counterexample shows. -/
theorem c7_amended_client_clock_history (store : Api.Store)
    (hospital_id user_id user_role preauth_id new_status remarks : String)
    (state_data : List (String × String)) (now : Nat) :
    (∀ prev ns2, (Api.update_preauth_status store hospital_id user_id user_role preauth_id
        new_status remarks state_data now).1 = .success prev ns2 →
      ∃ recd, (Api.update_preauth_status store hospital_id user_id user_role preauth_id
          new_status remarks state_data now).2.preauth_states
        = store.preauth_states ++ [recd] ∧
        recd.changed_at = now ∧ recd.changed_by = user_id) ∧
    List.Pairwise (fun a b => a.changed_at ≤ b.changed_at)
      (Api.get_status_history store preauth_id hospital_id) := by
  constructor
  · intro prev ns2 h1
    have heq : Api.update_preauth_status store hospital_id user_id user_role preauth_id
        new_status remarks state_data now
        = (.success prev ns2, (Api.update_preauth_status store hospital_id user_id user_role
            preauth_id new_status remarks state_data now).2) := by
      rw [← h1]
    obtain ⟨doc, hf, hprev, hns, hreq, hstates⟩ :=
      api_update_success_inversion store hospital_id user_id user_role preauth_id new_status
        remarks state_data now prev ns2 _ heq
    exact ⟨Api.create_preauth_state_record preauth_id hospital_id doc.status new_status
      user_id remarks (.fields state_data) now, hstates, rfl, rfl⟩
  · exact pairwise_sortByChangedAt _

/-- Witness for the amended C7: the record appended by a concrete successful
update carries exactly the caller's clock reading 100, and the returned
history of the initial store is sorted. -/
theorem c7_amended_client_clock_history_witness :
    (∃ recd, (Api.update_preauth_status c7store0 "H1" "uA" "preauth_executive" "PA7"
        "Need More Info" "" [] 100).2.preauth_states
      = c7store0.preauth_states ++ [recd] ∧
      recd.changed_at = 100 ∧ recd.changed_by = "uA") ∧
    List.Pairwise (fun a b => a.changed_at ≤ b.changed_at)
      (Api.get_status_history c7store0 "PA7" "H1") :=
  ⟨(c7_amended_client_clock_history c7store0 "H1" "uA" "preauth_executive" "PA7"
      "Need More Info" "" [] 100).1 "Preauth Registered" "Need More Info" (by decide),
   (c7_amended_client_clock_history c7store0 "H1" "uA" "preauth_executive" "PA7"
      "Need More Info" "" [] 100).2⟩

/-- C8. Claim: the allowed-next-states lookup used by the validators and the
status endpoints returns the empty list for every role not present in the
table and for every current state not present under a listed role, and never
raises (the embedded lookups are total functions of the defaulted `.get`
chain); consequently validation with an empty allowed list is a rejection,
not an error. Proved for both modules' `allowed_transitions`. -/
theorem c8_allowed_lookup_closure (r c n : String) :
    (alookup Api.STATUS_TRANSITIONS r = none → Api.allowed_transitions r c = []) ∧
    (∀ m, alookup Api.STATUS_TRANSITIONS r = some m → alookup m c = none →
      Api.allowed_transitions r c = []) ∧
    (Api.allowed_transitions r c = [] → Api.validate_status_transition c n r = false) ∧
    (alookup Legacy.STATUS_TRANSITIONS r = none → Legacy.allowed_transitions r c = []) ∧
    (∀ m, alookup Legacy.STATUS_TRANSITIONS r = some m → alookup m c = none →
      Legacy.allowed_transitions r c = []) ∧
    (Legacy.allowed_transitions r c = [] → Legacy.validate_status_transition c n r = false) := by
  refine ⟨?_, ?_, ?_, ?_, ?_, ?_⟩
  · intro h
    unfold Api.allowed_transitions
    rw [h]
    rfl
  · intro m h1 h2
    unfold Api.allowed_transitions
    rw [h1]
    show (alookup m c).getD [] = []
    rw [h2]
    rfl
  · intro h
    by_cases hr : r ∈ Api.VALID_ROLES
    · simp [Api.validate_status_transition, hr, h]
    · simp [Api.validate_status_transition, hr]
  · intro h
    unfold Legacy.allowed_transitions
    rw [h]
    rfl
  · intro m h1 h2
    unfold Legacy.allowed_transitions
    rw [h1]
    show (alookup m c).getD [] = []
    rw [h2]
    rfl
  · intro h
    by_cases h1 : c ∈ Legacy.VALID_STATUSES
    · by_cases h2 : n ∈ Legacy.VALID_STATUSES
      · simp [Legacy.validate_status_transition, h1, h2, h]
      · simp [Legacy.validate_status_transition, h2]
    · simp [Legacy.validate_status_transition, h1]

/-- Witness for C8: the unknown role `admin` and the unlisted state
`No Such State` produce empty allowed lists and rejected validations. -/
theorem c8_allowed_lookup_closure_witness :
    Api.allowed_transitions "admin" "Preauth Registered" = [] ∧
    Api.validate_status_transition "No Such State" "Preauth Approved" "processor" = false ∧
    Legacy.allowed_transitions "admin" "Preauth Registered" = [] := by
  refine ⟨?_, ?_, ?_⟩
  · exact (c8_allowed_lookup_closure "admin" "Preauth Registered" "x").1 (by decide)
  · exact (c8_allowed_lookup_closure "processor" "No Such State" "Preauth Approved").2.2.1
      ((c8_allowed_lookup_closure "processor" "No Such State" "Preauth Approved").2.1
        [("Preauth Registered", ["Need More Info", "Preauth Approved", "Preauth Denial"]),
         ("Discharge Submitted", ["Discharge NMI", "Discharge Approved", "Discharge Denial"])]
        (by decide) (by decide))
  · exact (c8_allowed_lookup_closure "admin" "Preauth Registered" "x").2.2.2.1 (by decide)

/-- C9. Claim: `submit_discharge` mutates a claim only when its current
status is exactly `Preauth Approved` — otherwise it returns an error and
changes nothing; when the status is `Preauth Approved` it writes status
`Discharge Submitted` and appends exactly one state record, performing the
change without consulting the validator or any entry of the transition table
(in which `Preauth Approved` has no outgoing entries: `noPolicyEntry` holds
of it and the validator rejects the very transition the handler performs,
under every role). -/
theorem c9_submit_discharge_contract (store : Api.Store)
    (hospital_id user_id preauth_id : String) (dd : Api.DischargeData) (now : Nat) :
    (Api.findPreauth store.preauth_requests preauth_id hospital_id = none →
      Api.submit_discharge store hospital_id user_id preauth_id dd now
        = (.notFound, store)) ∧
    (∀ doc, Api.findPreauth store.preauth_requests preauth_id hospital_id = some doc →
      doc.status ≠ "Preauth Approved" →
      Api.submit_discharge store hospital_id user_id preauth_id dd now
        = (.wrongStatus doc.status, store)) ∧
    (∀ doc, Api.findPreauth store.preauth_requests preauth_id hospital_id = some doc →
      doc.status = "Preauth Approved" →
      ((Api.submit_discharge store hospital_id user_id preauth_id dd now).1 = .success ∧
       (Api.submit_discharge store hospital_id user_id preauth_id dd now).2.preauth_states
         = store.preauth_states ++
           [Api.create_preauth_state_record preauth_id hospital_id doc.status
             "Discharge Submitted" user_id "Discharge information submitted"
             (.dischargeWrap dd) now] ∧
       (∃ doc', Api.findPreauth (Api.submit_discharge store hospital_id user_id preauth_id
           dd now).2.preauth_requests preauth_id hospital_id = some doc' ∧
         doc'.status = "Discharge Submitted") ∧
       Api.noPolicyEntry "Preauth Approved" = true ∧
       (∀ role2, Api.validate_status_transition "Preauth Approved" "Discharge Submitted"
         role2 = false))) := by
  refine ⟨?_, ?_, ?_⟩
  · intro h
    simp [Api.submit_discharge, h]
  · intro doc h hne
    simp [Api.submit_discharge, h, hne]
  · intro doc h heq
    have hc : (["Preauth Approved"].contains doc.status) = true := by
      rw [heq]
      rfl
    have hd : Api.preauthMatch preauth_id hospital_id doc = true := List.find?_some h
    refine ⟨?_, ?_, ?_, by decide,
      fun role2 => api_validate_false_of_noPolicyEntry _ _ role2 (by decide)⟩
    · simp [Api.submit_discharge, h, hc, heq]
    · simp [Api.submit_discharge, h, hc, heq]
    · refine ⟨{ doc with
          status := "Discharge Submitted",
          discharge_date := some (dd.discharge_date.getD now),
          actual_cost := some (dd.actual_cost.getD "0.0"),
          discharge_summary := some (dd.discharge_summary.getD ""),
          final_diagnosis := some (dd.final_diagnosis.getD ""),
          updated_at := now, updated_by := user_id }, ?_, rfl⟩
      have h2 : (Api.submit_discharge store hospital_id user_id preauth_id dd now).2.preauth_requests
          = Api.setDoc store.preauth_requests doc.docId
            { doc with
                status := "Discharge Submitted",
                discharge_date := some (dd.discharge_date.getD now),
                actual_cost := some (dd.actual_cost.getD "0.0"),
                discharge_summary := some (dd.discharge_summary.getD ""),
                final_diagnosis := some (dd.final_diagnosis.getD ""),
                updated_at := now, updated_by := user_id } := by
        simp [Api.submit_discharge, h, hc, heq]
      rw [h2]
      exact find?_setDoc store.preauth_requests _ doc _ h hd

/-- Witness for C9: discharging a concrete approved claim succeeds, appends
exactly one `Discharge Submitted` state record, stores the new status, and
the bypassed validator would have rejected that transition for every role. -/
theorem c9_submit_discharge_contract_witness :
    (Api.submit_discharge c9store "H1" "u1" "PA9" c9dd 11).1 = .success ∧
    (Api.submit_discharge c9store "H1" "u1" "PA9" c9dd 11).2.preauth_states
      = c9store.preauth_states ++
        [Api.create_preauth_state_record "PA9" "H1" c9doc.status "Discharge Submitted"
          "u1" "Discharge information submitted" (.dischargeWrap c9dd) 11] ∧
    (∃ doc', Api.findPreauth (Api.submit_discharge c9store "H1" "u1" "PA9"
        c9dd 11).2.preauth_requests "PA9" "H1" = some doc' ∧
      doc'.status = "Discharge Submitted") ∧
    Api.noPolicyEntry "Preauth Approved" = true ∧
    (∀ role2, Api.validate_status_transition "Preauth Approved" "Discharge Submitted"
      role2 = false) :=
  (c9_submit_discharge_contract c9store "H1" "u1" "PA9" c9dd 11).2.2 c9doc
    (by decide) (by decide)

/-- C10. Claim: in both transition tables no state is a member of its own
allowed-next-states set for any role, hence both `validate_status_transition`
functions reject every proposed self-transition, for every state string and
every role string. -/
theorem c10_no_self_transition (s r : String) :
    Legacy.validate_status_transition s s r = false ∧
    Api.validate_status_transition s s r = false ∧
    Legacy.STATUS_TRANSITIONS.all (fun e => noSelfLoop e.2) = true ∧
    Api.STATUS_TRANSITIONS.all (fun e => noSelfLoop e.2) = true :=
  ⟨legacy_no_self s r, api_no_self s r, by decide, by decide⟩
